/-
Verification of the balance-computation core of the app-cuentas repository
(src/functions/src/index.ts).  The Cloud Functions are shallowly embedded as
pure Lean functions: Firestore collections become association lists keyed by
document id, timestamps become calendar dates (year / 0-based month / day,
mirroring the JavaScript Date accessors the code uses), JavaScript numbers
become rationals, and each handler is a function from an explicit world state
to a new world state plus an error component.  Randomly generated tokens and
platform-generated document ids are passed in as parameters.
-/
import Mathlib

/-- Calendar date as the JavaScript code observes it through
`Date.getFullYear` / `getMonth` (0-based) / `getDate`. -/
structure JsDate where
  year : Int
  month : Nat
  day : Nat
deriving DecidableEq, Repr

/-- Strict comparison of dates, mirroring `date1 < date2` on JS `Date`
values at day granularity (index.ts line 159). -/
def jsDateLt (a b : JsDate) : Bool :=
  decide (a.year < b.year ∨ (a.year = b.year ∧
    (a.month < b.month ∨ (a.month = b.month ∧ a.day < b.day))))

/-- Gregorian leap-year rule, as implemented by the JS `Date` object. -/
def esBisiesto (y : Int) : Bool :=
  decide (y % 4 = 0 ∧ (¬ y % 100 = 0 ∨ y % 400 = 0))

/-- Number of days of 0-based month `m` in year `y`. -/
def diasDelMes (y : Int) (m : Nat) : Nat :=
  if m = 1 then (if esBisiesto y then 29 else 28)
  else if m = 3 ∨ m = 5 ∨ m = 8 ∨ m = 10 then 30
  else 31

/-- Day-overflow normalisation performed implicitly by the JS `Date` time
value: while the day exceeds the month length, roll into the next month.
Fuel-bounded (the uses below need at most two rolls). -/
def normalizarDia : Nat → Int → Nat → Nat → JsDate
  | 0, y, m, d => ⟨y, m, d⟩
  | fuel + 1, y, m, d =>
    if d ≤ diasDelMes y m then ⟨y, m, d⟩
    else if m = 11 then normalizarDia fuel (y + 1) 0 (d - diasDelMes y m)
    else normalizarDia fuel y (m + 1) (d - diasDelMes y m)

/-- `new Date(ms + n days)`: adding `n` days to a date
(index.ts line 505, the 30-day invitation expiry). -/
def addDays (dt : JsDate) (n : Nat) : JsDate :=
  normalizarDia 4 dt.year dt.month (dt.day + n)

/-- `d.setMonth(d.getMonth() + 1)` on a JS `Date`: bump the 0-based month,
keep the day, and let the platform normalise overflow (so Jan 31 becomes
Mar 3).  Used by `crearEventoRecurrente` (index.ts lines 430-431, 461-462). -/
def addOneMonth (dt : JsDate) : JsDate :=
  if dt.month = 11 then normalizarDia 2 (dt.year + 1) 0 dt.day
  else normalizarDia 2 dt.year (dt.month + 1) dt.day

/-- Month-name table of `crearEventoRecurrente` (index.ts lines 434-437). -/
def meses : List String :=
  ["enero", "febrero", "marzo", "abril", "mayo", "junio",
   "julio", "agosto", "septiembre", "octubre", "noviembre", "diciembre"]

/-- Case-insensitive prefix test on character lists. -/
def esPrefijoCI : List Char → List Char → Bool
  | [], _ => true
  | _ :: _, [] => false
  | c :: cs, d :: ds => (c.toLower = d.toLower) && esPrefijoCI cs ds

/-- Replace the first case-insensitive occurrence of `needle` by `repl`,
like `str.replace(new RegExp(needle, 'i'), repl)` for a needle free of
regex metacharacters (index.ts lines 441-444). -/
def reemplazarPrimeroCI (needle repl : List Char) : List Char → List Char
  | [] => if esPrefijoCI needle [] then repl else []
  | c :: cs =>
    if esPrefijoCI needle (c :: cs) then repl ++ (c :: cs).drop needle.length
    else c :: reemplazarPrimeroCI needle repl cs

/-- String wrapper for `reemplazarPrimeroCI`. -/
def replaceFirstCI (s pat repl : String) : String :=
  ⟨reemplazarPrimeroCI pat.data repl.data s.data⟩

/-- Currency enum of the `Evento` interface (index.ts line 29). -/
inductive Moneda
  | ARS
  | USD
deriving DecidableEq, Repr

/-- The string Firestore stores for a currency. -/
def monedaStr : Moneda → String
  | Moneda.ARS => "ARS"
  | Moneda.USD => "USD"

/-- Recurrence enum (index.ts line 31). -/
inductive Repeticion
  | unico
  | mensual
deriving DecidableEq, Repr

/-- Event lifecycle state enum (index.ts line 32). -/
inductive Estado
  | abierto
  | cerrado
deriving DecidableEq, Repr

/-- `Participante` interface (index.ts lines 20-24); the participation
fraction is a JS number, embedded as a rational. -/
structure Participante where
  uid : String
  alias' : String
  participacion : ℚ
deriving DecidableEq, Repr

/-- One entry of the `adjuntos` array (index.ts lines 41-47). -/
structure Adjunto where
  path : String
  tipo : String
  bytes : Nat
  subido_por : String
  subido_en : JsDate
deriving DecidableEq, Repr

/-- `Evento` interface (index.ts lines 26-48). -/
structure Evento where
  id : String
  titulo : String
  moneda : Moneda
  monto : ℚ
  repeticion : Repeticion
  estado : Estado
  forma_pago : String
  vence_el : Option JsDate
  creado_por : String
  creado_en : JsDate
  quien_pago : Option String
  fecha_pago : Option JsDate
  participantes : List Participante
  token_invitacion : String
  adjuntos : List Adjunto
deriving DecidableEq, Repr

/-- `Balance` interface (index.ts lines 50-56).  The `moneda` field is a
plain string because `actualizarBalance` receives it as `moneda: string`. -/
structure Balance where
  key : String
  entre : String × String
  moneda : String
  saldo : ℚ
  actualizado_en : JsDate
deriving DecidableEq, Repr

/-- `Invitacion` interface (index.ts lines 58-66). -/
structure Invitacion where
  evento_id : String
  token : String
  creado_por : String
  creado_en : JsDate
  expira_en : Option JsDate
  usos : Nat
  max_usos : Nat
deriving DecidableEq, Repr

/-- The slice of a `usuarios` profile document that `joinByToken` reads
(index.ts lines 189-191). -/
structure Usuario where
  displayName : Option String
  email : Option String
deriving DecidableEq, Repr

/-- An `auditorias` document as written by `registrarAuditoria`
(index.ts lines 655-668); the free-form payload is not modelled. -/
structure Auditoria where
  tipo : String
  evento_id : String
  actor : String
  en : JsDate
deriving DecidableEq, Repr

/-- Firestore collection: association list from document id to data. -/
def Coleccion (α : Type) : Type := List (String × α)

/-- Read a document by id (first binding wins, ids are unique). -/
def lookupDoc {α : Type} : List (String × α) → String → Option α
  | [], _ => none
  | (k, v) :: rest, key => if k = key then some v else lookupDoc rest key

/-- Overwrite the document stored under `key` (Firestore `update`/`set` on
an existing document); a no-op when the id is absent. -/
def updateDoc {α : Type} : List (String × α) → String → α → List (String × α)
  | [], _, _ => []
  | (k, v) :: rest, key, nuevo =>
    if k = key then (key, nuevo) :: rest else (k, v) :: updateDoc rest key nuevo

/-- The Firestore state the cloud functions in scope read and write. -/
structure Mundo where
  eventos : List (String × Evento)
  invitaciones : List (String × Invitacion)
  usuarios : List (String × Usuario)
  balances : List (String × Balance)
  auditorias : List Auditoria
deriving DecidableEq, Repr

/-- Plain prefix test on character lists (kernel-evaluable replacement for
the string-position based library primitive). -/
def esPrefijoLista : List Char → List Char → Bool
  | [], _ => true
  | _ :: _, [] => false
  | c :: cs, d :: ds => c = d && esPrefijoLista cs ds

/-- JS `s.startsWith(pre)`. -/
def jsStartsWith (s pre : String) : Bool :=
  esPrefijoLista pre.data s.data

/-- Split a character list at every occurrence of `sep`, keeping empty
segments, like the JS `String.split` with a one-character separator. -/
def splitChar (sep : Char) : List Char → List (List Char)
  | [] => [[]]
  | c :: cs =>
    let r := splitChar sep cs
    if c = sep then [] :: r
    else
      match r with
      | [] => [[c]]
      | h :: t => (c :: h) :: t

/-- JS `s.split(sep)` for a one-character separator. -/
def jsSplit (s : String) (sep : Char) : List String :=
  (splitChar sep s.data).map (fun l => ⟨l⟩)

/-- Lexicographic strict comparison of character lists by code point,
the order JS string comparison uses. -/
def ltCharList : List Char → List Char → Bool
  | [], [] => false
  | [], _ :: _ => true
  | _ :: _, [] => false
  | c :: cs, d :: ds => if c = d then ltCharList cs ds else decide (c < d)

/-- JS `a < b` on strings. -/
def jsStrLt (a b : String) : Bool :=
  ltCharList a.data b.data

/-- `email.split('@')[0]`: the characters before the first `@`
(the whole string when there is no `@`). -/
def localPart (e : String) : String :=
  ⟨e.data.takeWhile (fun c => c ≠ '@')⟩

/-- JS truthiness fallback `evento.quien_pago || evento.creado_por`
(index.ts line 343): an absent or empty payer string falls back to the
creator. -/
def quienPagoDe (ev : Evento) : String :=
  match ev.quien_pago with
  | some s => if s = "" then ev.creado_por else s
  | none => ev.creado_por

/-- `[deudor, acreedor].sort()` for two strings: JS default sort is
lexicographic ascending (index.ts line 370). -/
def sortPair (x y : String) : String × String :=
  if jsStrLt y x then (y, x) else (x, y)

/-- The canonical balance-document key
`«uidA»_«uidB»_«moneda»` (index.ts lines 370-371). -/
def balKey (deudor acreedor moneda : String) : String :=
  (sortPair deudor acreedor).1 ++ "_" ++ (sortPair deudor acreedor).2 ++ "_" ++ moneda

/-- `actualizarBalance` (index.ts lines 367-419): load the balance document
for the sorted pair, or create it, and fold the new debt into `saldo`
(negative when the lexicographically smaller identity is the debtor). -/
def actualizarBalance (store : List (String × Balance))
    (deudor acreedor moneda : String) (deuda : ℚ) (now : JsDate) :
    List (String × Balance) :=
  let uidA := (sortPair deudor acreedor).1
  let uidB := (sortPair deudor acreedor).2
  let key := balKey deudor acreedor moneda
  match lookupDoc store key with
  | some balance =>
    let nuevoSaldo := if uidA = deudor then balance.saldo - deuda else balance.saldo + deuda
    updateDoc store key { balance with saldo := nuevoSaldo, actualizado_en := now }
  | none =>
    let saldoInicial := if uidA = deudor then -deuda else deuda
    (key, { key := key, entre := (uidA, uidB), moneda := moneda,
            saldo := saldoInicial, actualizado_en := now }) :: store

/-- `calcularBalances` (index.ts lines 339-362): for each participant other
than the payer, accrue `monto * participacion` against the payer. -/
def calcularBalances (evento : Evento) (store : List (String × Balance))
    (now : JsDate) : List (String × Balance) :=
  let quienPago := quienPagoDe evento
  evento.participantes.foldl
    (fun s participante =>
      if participante.uid = quienPago then s
      else actualizarBalance s participante.uid quienPago (monedaStr evento.moneda)
        (evento.monto * participante.participacion) now)
    store

/-- Error codes of `functions.https.HttpsError` raised by `joinByToken`
(index.ts lines 130-251). -/
inductive ErrCode
  | unauthenticated
  | invalidArgument
  | notFound
  | deadlineExceeded
  | resourceExhausted
  | failedPrecondition
  | alreadyExists
  | internal
deriving DecidableEq, Repr

/-- Successful `joinByToken` response payload (index.ts lines 233-240). -/
structure JoinOk where
  id : String
  titulo : String
  participantes : Nat
deriving DecidableEq, Repr

/-- The Firestore query
`invitaciones.where('token','==',t).limit(1)` (index.ts lines 147-150):
first invitation document whose token matches. -/
def buscarInvitacion : List (String × Invitacion) → String → Option (String × Invitacion)
  | [], _ => none
  | (id, inv) :: rest, t => if inv.token = t then some (id, inv) else buscarInvitacion rest t

/-- Expiry test `invitacion.expira_en && invitacion.expira_en.toDate() < new Date()`
(index.ts line 159). -/
def invitacionExpirada (inv : Invitacion) (now : JsDate) : Bool :=
  match inv.expira_en with
  | some e => jsDateLt e now
  | none => false

/-- Second and third stages of the alias fallback chain of `joinByToken`
(index.ts line 191): the local part of the email when non-empty, else the
literal fallback. -/
def aliasDesdeEmail (email : Option String) : String :=
  match email with
  | some e => if localPart e ≠ "" then localPart e else "Usuario"
  | none => "Usuario"

/-- Alias resolution
`userData?.displayName || userData?.email?.split('@')[0] || 'Usuario'`
(index.ts lines 189-191), with JS falsiness of the empty string. -/
def resolveAlias (usuario : Option Usuario) : String :=
  match usuario with
  | none => "Usuario"
  | some u =>
    match u.displayName with
    | some s => if s ≠ "" then s else aliasDesdeEmail u.email
    | none => aliasDesdeEmail u.email

/-- Participant-list rewrite of `joinByToken` (index.ts lines 193-207):
every existing fraction becomes `1 / (n + 1)` and the requester is
appended with the same fraction. -/
def actualizarParticipantes (parts : List Participante) (uid anAlias : String) :
    List Participante :=
  let nuevaParticipacion : ℚ := 1 / ((parts.length : ℚ) + 1)
  parts.map (fun p => { p with participacion := nuevaParticipacion }) ++
    [{ uid := uid, alias' := anAlias, participacion := nuevaParticipacion }]

/-- `joinByToken` (index.ts lines 130-251).  The caller identity and the
request token are optional to model missing auth / missing field; errors
return the world unchanged, mirroring the fact that every validation throw
happens before the first Firestore write. -/
def joinByToken : Mundo → Option String → Option String → JsDate →
    Mundo × Except ErrCode JoinOk
  | w, none, _, _ => (w, Except.error ErrCode.unauthenticated)
  | w, some _, none, _ => (w, Except.error ErrCode.invalidArgument)
  | w, some userId, some t, now =>
    if t = "" then (w, Except.error ErrCode.invalidArgument)
    else
      match buscarInvitacion w.invitaciones t with
      | none => (w, Except.error ErrCode.notFound)
      | some (invId, invitacion) =>
        if invitacionExpirada invitacion now then
          (w, Except.error ErrCode.deadlineExceeded)
        else if invitacion.usos ≥ invitacion.max_usos then
          (w, Except.error ErrCode.resourceExhausted)
        else
          match lookupDoc w.eventos invitacion.evento_id with
          | none => (w, Except.error ErrCode.notFound)
          | some evento =>
            if evento.estado ≠ Estado.abierto then
              (w, Except.error ErrCode.failedPrecondition)
            else if evento.participantes.any (fun p => p.uid = userId) then
              (w, Except.error ErrCode.alreadyExists)
            else
              let anAlias := resolveAlias (lookupDoc w.usuarios userId)
              let participantesActualizados :=
                actualizarParticipantes evento.participantes userId anAlias
              let w' : Mundo :=
                { w with
                  eventos := updateDoc w.eventos invitacion.evento_id
                    { evento with participantes := participantesActualizados },
                  invitaciones := updateDoc w.invitaciones invId
                    { invitacion with usos := invitacion.usos + 1 },
                  auditorias := w.auditorias ++
                    [{ tipo := "INVITAR", evento_id := evento.id,
                       actor := userId, en := now }] }
              (w', Except.ok
                { id := evento.id, titulo := evento.titulo,
                  participantes := participantesActualizados.length })

/-- `crearEventoRecurrente` (index.ts lines 424-478), the document it builds.
The spread `...eventoOriginal` copies every original field — including the
`id` field, despite the declared `Omit<Evento,'id'>` type — and then
overrides title, creation date, state, payer fields, attachments and token.
The fresh random token is a parameter. -/
def crearEventoRecurrente (orig : Evento) (now : JsDate) (tokEv : String) : Evento :=
  let fechaActual := orig.creado_en
  let mesActual := meses.getD fechaActual.month ""
  let mesProximo := meses.getD (addOneMonth fechaActual).month ""
  let tituloRecurrente := replaceFirstCI orig.titulo mesActual mesProximo
  let base : Evento :=
    { orig with
      titulo := tituloRecurrente,
      creado_en := now,
      estado := Estado.abierto,
      quien_pago := none,
      fecha_pago := none,
      adjuntos := [],
      token_invitacion := tokEv }
  match orig.vence_el with
  | some v => { base with vence_el := some (addOneMonth v) }
  | none => base

/-- `crearInvitacion` (index.ts lines 495-517), the invitation document it
creates for a freshly spawned event: 30-day expiry, 50-use cap. -/
def crearInvitacion (eventoId creadorUid : String) (now : JsDate) (tok : String) :
    Invitacion :=
  { evento_id := eventoId, token := tok, creado_por := creadorUid,
    creado_en := now, expira_en := some (addDays now 30),
    usos := 0, max_usos := 50 }

/-- The only error the close trigger itself raises: the payer-membership
check at index.ts lines 91-93 (`InvalidState` in the spec taxonomy). -/
inductive CierreError
  | invalidState
deriving DecidableEq, Repr

/-- Success path of the close trigger (index.ts lines 95-104): compute
balances, and for a monthly event append the spawned successor event and
its invitation (fresh document ids and tokens are parameters).
Push notifications are best-effort and out of the modelled state. -/
def procesarCierre (w : Mundo) (after : Evento) (now : JsDate)
    (freshEvId freshInvId tokEv tokInv : String) : Mundo :=
  let w1 := { w with balances := calcularBalances after w.balances now }
  if after.repeticion = Repeticion.mensual then
    let nuevo := crearEventoRecurrente after now tokEv
    let inv := crearInvitacion freshEvId after.creado_por now tokInv
    { w1 with
      eventos := w1.eventos ++ [(freshEvId, nuevo)],
      invitaciones := w1.invitaciones ++ [(freshInvId, inv)] }
  else w1

/-- The compensating write of the close trigger's catch block
(index.ts lines 113-117): back to `abierto`, payer fields deleted. -/
def revertirEvento (ev : Evento) : Evento :=
  { ev with estado := Estado.abierto, quien_pago := none, fecha_pago := none }

/-- `onEventoUpdate_cierre` (index.ts lines 76-121).  `w` is the Firestore
state after the client write that produced the `before`/`after` pair, so
`w.eventos` is expected to hold `after` under `eventoId`.  On the
`abierto → cerrado` edge with a truthy payer absent from the participant
list, the catch block rewrites the event document and re-raises. -/
def onEventoUpdate_cierre (w : Mundo) (eventoId : String) (before after : Evento)
    (now : JsDate) (freshEvId freshInvId tokEv tokInv : String) :
    Mundo × Option CierreError :=
  if before.estado = Estado.abierto ∧ after.estado = Estado.cerrado then
    match after.quien_pago with
    | some qp =>
      if qp ≠ "" ∧ ¬ after.participantes.any (fun p => p.uid = qp) then
        ({ w with eventos := updateDoc w.eventos eventoId (revertirEvento after) },
         some CierreError.invalidState)
      else
        (procesarCierre w after now freshEvId freshInvId tokEv tokInv, none)
    | none =>
      (procesarCierre w after now freshEvId freshInvId tokEv tokInv, none)
  else (w, none)

/-- Injectable collaborator failures for the storage trigger: listing the
bucket, deleting an object and writing an audit document can each fail at
the platform; every such failure is caught inside its helper. -/
structure FallosStorage where
  listaFalla : Bool
  borradoFalla : Bool
  auditoriaFalla : Bool
deriving DecidableEq, Repr

/-- No collaborator failure. -/
def sinFallos : FallosStorage :=
  { listaFalla := false, borradoFalla := false, auditoriaFalla := false }

/-- Storage-side state: the object paths present in the bucket plus the
audit collection the validator writes to. -/
structure Almacen where
  files : List String
  auditorias : List Auditoria
deriving DecidableEq, Repr

/-- The `object` metadata delivered to the finalize trigger
(index.ts lines 265-267). -/
structure ObjetoStorage where
  name : Option String
  size : Nat
  contentType : Option String
deriving DecidableEq, Repr

/-- `eliminarArchivo` (index.ts lines 626-633): delete the object; a
platform failure is caught and logged, leaving the bucket unchanged. -/
def eliminarArchivo (files : List String) (fallos : FallosStorage)
    (filePath : String) : List String :=
  if fallos.borradoFalla then files else files.filter (fun f => f ≠ filePath)

/-- `registrarAuditoria` (index.ts lines 655-668): append the audit
document; a platform failure is caught and logged. -/
def registrarAuditoria (auditorias : List Auditoria) (fallos : FallosStorage)
    (a : Auditoria) : List Auditoria :=
  if fallos.auditoriaFalla then auditorias else auditorias ++ [a]

/-- `contarArchivosEvento` (index.ts lines 638-650): count the bucket
objects under `events/«eventoId»/`; a listing failure is caught and the
function returns 0. -/
def contarArchivosEvento (files : List String) (fallos : FallosStorage)
    (eventoId : String) : Nat :=
  if fallos.listaFalla then 0
  else (files.filter (fun f => jsStartsWith f ("events/" ++ eventoId ++ "/"))).length

/-- MIME types accepted by the validator (index.ts line 286). -/
def allowedTypes : List String :=
  ["image/jpeg", "image/jpg", "image/png", "image/gif", "application/pdf"]

/-- Size cap of the validator, 1 MiB (index.ts line 294). -/
def maxSize : Nat := 1 * 1024 * 1024

/-- `onStorageFinalize_validarAdjuntos` (index.ts lines 261-330).  `alm` is
the bucket state after the upload, so the new object path is expected to be
in `alm.files`.  The second component is the error the trigger re-raises:
the outer catch swallows everything, and every helper catches its own
platform failure, so it is `none` on every path. -/
def onStorageFinalize_validarAdjuntos (alm : Almacen) (obj : ObjetoStorage)
    (fallos : FallosStorage) (now : JsDate) : Almacen × Option String :=
  match obj.name with
  | none => (alm, none)
  | some filePath =>
    if ¬ jsStartsWith filePath "events/" then (alm, none)
    else
      let pathParts := jsSplit filePath '/' 
      if pathParts.length < 3 then (alm, none)
      else
        let eventoId := pathParts.getD 1 ""
        let contentType := obj.contentType.getD ""
        if ¬ allowedTypes.contains contentType then
          ({ alm with files := eliminarArchivo alm.files fallos filePath }, none)
        else if obj.size > maxSize then
          ({ alm with files := eliminarArchivo alm.files fallos filePath }, none)
        else
          let archivosExistentes := contarArchivosEvento alm.files fallos eventoId
          if archivosExistentes ≥ 2 then
            ({ files := eliminarArchivo alm.files fallos filePath,
               auditorias := registrarAuditoria alm.auditorias fallos
                 { tipo := "SUBIR_ADJUNTO_RECHAZADO", evento_id := eventoId,
                   actor := "system", en := now } }, none)
          else (alm, none)

/-- Reference date used by the concrete scenarios (15 January 2024). -/
def fecha0 : JsDate := ⟨2024, 0, 15⟩

/-- Scenario A event of the specification: amount 300 ARS, three
participants with fraction 1/3 each, closed with payer u1. -/
def eventoEscenarioA : Evento :=
  { id := "EV-A", titulo := "Cena enero", moneda := Moneda.ARS, monto := 300,
    repeticion := Repeticion.unico, estado := Estado.cerrado,
    forma_pago := "efectivo", vence_el := none, creado_por := "u1",
    creado_en := fecha0, quien_pago := some "u1", fecha_pago := some fecha0,
    participantes := [⟨"u1", "Uno", 1/3⟩, ⟨"u2", "Dos", 1/3⟩, ⟨"u3", "Tres", 1/3⟩],
    token_invitacion := "tokA", adjuntos := [] }

/-- A one-participant open event used by the join scenarios. -/
def eventoBase : Evento :=
  { id := "EV-B", titulo := "Asado", moneda := Moneda.ARS, monto := 100,
    repeticion := Repeticion.unico, estado := Estado.abierto,
    forma_pago := "efectivo", vence_el := none, creado_por := "c0",
    creado_en := fecha0, quien_pago := none, fecha_pago := none,
    participantes := [⟨"c0", "Creador", 1⟩],
    token_invitacion := "tokB", adjuntos := [] }

/-- Scenario B invitation: single-use, unexpired. -/
def invitacionB : Invitacion :=
  { evento_id := "EV-B", token := "tokB", creado_por := "c0",
    creado_en := fecha0, expira_en := none, usos := 0, max_usos := 1 }

/-- World for the join scenarios. -/
def mundoB : Mundo :=
  { eventos := [("EV-B", eventoBase)], invitaciones := [("invB", invitacionB)],
    usuarios := [("u2", { displayName := none, email := some "ana@mail.com" })],
    balances := [], auditorias := [] }

/-- An invitation that is both expired and exhausted. -/
def invitacionVencida : Invitacion :=
  { evento_id := "EV-B", token := "tokE", creado_por := "c0",
    creado_en := ⟨2019, 11, 1⟩, expira_en := some ⟨2020, 0, 1⟩,
    usos := 1, max_usos := 1 }

/-- World holding the expired-and-exhausted invitation. -/
def mundoVencido : Mundo :=
  { eventos := [("EV-B", eventoBase)], invitaciones := [("invE", invitacionVencida)],
    usuarios := [], balances := [], auditorias := [] }

/-- Scenario D before-state: an open two-participant event. -/
def eventoAntesD : Evento :=
  { id := "EV-D", titulo := "Cine", moneda := Moneda.USD, monto := 40,
    repeticion := Repeticion.unico, estado := Estado.abierto,
    forma_pago := "tarjeta", vence_el := none, creado_por := "u1",
    creado_en := fecha0, quien_pago := none, fecha_pago := none,
    participantes := [⟨"u1", "Uno", 1/2⟩, ⟨"u2", "Dos", 1/2⟩],
    token_invitacion := "tokD", adjuntos := [] }

/-- Scenario D after-state: closed naming a payer who is not a participant. -/
def eventoDespuesD : Evento :=
  { eventoAntesD with
    estado := Estado.cerrado, quien_pago := some "ux", fecha_pago := some fecha0 }

/-- World after the client write that closed the Scenario D event. -/
def mundoD : Mundo :=
  { eventos := [("EV-D", eventoDespuesD)], invitaciones := [], usuarios := [],
    balances := [], auditorias := [] }

/-- A closed monthly event with a due date, original of the recurring spawn. -/
def eventoMensual : Evento :=
  { id := "EV-M", titulo := "Alquiler enero", moneda := Moneda.ARS, monto := 500,
    repeticion := Repeticion.mensual, estado := Estado.cerrado,
    forma_pago := "transferencia", vence_el := some ⟨2024, 0, 31⟩,
    creado_por := "u1", creado_en := ⟨2024, 0, 5⟩, quien_pago := some "u1",
    fecha_pago := some fecha0,
    participantes := [⟨"u1", "Uno", 1/2⟩, ⟨"u2", "Dos", 1/2⟩],
    token_invitacion := "tokM",
    adjuntos := [⟨"events/EV-M/r.jpg", "image/jpeg", 1000, "u1", fecha0⟩] }

/-- Bucket already holding two attachments of event E1 plus a freshly
uploaded third file of a disallowed MIME type. -/
def almacenTexto : Almacen :=
  { files := ["events/E1/a.jpg", "events/E1/b.jpg", "events/E1/c.txt"],
    auditorias := [] }

/-- The disallowed third upload (plain text). -/
def objetoTexto : ObjetoStorage :=
  { name := some "events/E1/c.txt", size := 100, contentType := some "text/plain" }

/-- Bucket already holding two attachments of event E1 plus a freshly
uploaded third file that is itself valid (allowed type, small). -/
def almacenValido : Almacen :=
  { files := ["events/E1/a.jpg", "events/E1/b.jpg", "events/E1/c.jpg"],
    auditorias := [] }

/-- The valid third upload. -/
def objetoValido : ObjetoStorage :=
  { name := some "events/E1/c.jpg", size := 100, contentType := some "image/jpeg" }

theorem ltCharList_asymm (a : List Char) : ∀ b : List Char,
    ltCharList a b = true → ltCharList b a = false := by
  induction a with
  | nil =>
    intro b h
    cases b with
    | nil => simp [ltCharList] at h
    | cons d ds => simp [ltCharList]
  | cons c cs ih =>
    intro b h
    cases b with
    | nil => simp [ltCharList] at h
    | cons d ds =>
      simp only [ltCharList] at h ⊢
      by_cases hcd : c = d
      · subst hcd
        rw [if_pos rfl] at h ⊢
        exact ih ds h
      · rw [if_neg hcd] at h
        have hlt : c < d := of_decide_eq_true h
        have hdc : ¬ d = c := fun e => hcd e.symm
        rw [if_neg hdc]
        exact decide_eq_false (lt_asymm hlt)

theorem ltCharList_antisymm (a : List Char) : ∀ b : List Char,
    ltCharList a b = false → ltCharList b a = false → a = b := by
  induction a with
  | nil =>
    intro b h1 _
    cases b with
    | nil => rfl
    | cons d ds => simp [ltCharList] at h1
  | cons c cs ih =>
    intro b h1 h2
    cases b with
    | nil => simp [ltCharList] at h2
    | cons d ds =>
      simp only [ltCharList] at h1 h2
      by_cases hcd : c = d
      · subst hcd
        rw [if_pos rfl] at h1 h2
        rw [ih ds h1 h2]
      · rw [if_neg hcd] at h1
        have hdc : ¬ d = c := fun e => hcd e.symm
        rw [if_neg hdc] at h2
        have n1 : ¬ c < d := of_decide_eq_false h1
        have n2 : ¬ d < c := of_decide_eq_false h2
        rcases lt_trichotomy c d with h | h | h
        · exact absurd h n1
        · exact absurd h hcd
        · exact absurd h n2

theorem jsStrLt_asymm (a b : String) (h : jsStrLt a b = true) : jsStrLt b a = false :=
  ltCharList_asymm a.data b.data h

theorem jsStrLt_antisymm (a b : String) (h1 : jsStrLt a b = false)
    (h2 : jsStrLt b a = false) : a = b := by
  cases a with
  | mk la =>
    cases b with
    | mk lb =>
      have : la = lb := ltCharList_antisymm la lb h1 h2
      rw [this]

theorem sortPair_comm (x y : String) : sortPair x y = sortPair y x := by
  unfold sortPair
  cases hxy : jsStrLt y x with
  | true =>
    rw [jsStrLt_asymm y x hxy]
    simp
  | false =>
    cases hyx : jsStrLt x y with
    | true => simp
    | false =>
      have : x = y := jsStrLt_antisymm x y hyx hxy
      rw [this]

theorem balKey_comm (d a m : String) : balKey d a m = balKey a d m := by
  unfold balKey
  rw [sortPair_comm]

theorem lookupDoc_updateDoc_self {α : Type} (l : List (String × α)) (k : String)
    (v v' : α) (h : lookupDoc l k = some v) :
    lookupDoc (updateDoc l k v') k = some v' := by
  induction l with
  | nil => simp [lookupDoc] at h
  | cons p rest ih =>
    obtain ⟨k0, v0⟩ := p
    by_cases hk : k0 = k
    · subst hk
      simp [lookupDoc, updateDoc]
    · simp only [lookupDoc, if_neg hk] at h
      simp only [updateDoc, if_neg hk, lookupDoc]
      exact ih h

theorem lookupDoc_updateDoc_ne {α : Type} (l : List (String × α)) (k k' : String)
    (v : α) (h : k' ≠ k) :
    lookupDoc (updateDoc l k v) k' = lookupDoc l k' := by
  induction l with
  | nil => simp [lookupDoc, updateDoc]
  | cons p rest ih =>
    obtain ⟨k0, v0⟩ := p
    by_cases hk : k0 = k
    · subst hk
      simp only [updateDoc, if_pos rfl, lookupDoc]
      rw [if_neg (fun e => h e.symm), if_neg (fun e => h e.symm)]
    · simp only [updateDoc, if_neg hk, lookupDoc]
      by_cases hk' : k0 = k'
      · rw [if_pos hk', if_pos hk']
      · rw [if_neg hk', if_neg hk']
        exact ih

theorem lookupDoc_updateDoc_cases {α : Type} (l : List (String × α)) (k i : String)
    (v x : α) (h : lookupDoc (updateDoc l k v) i = some x) :
    (i = k ∧ x = v) ∨ lookupDoc l i = some x := by
  induction l with
  | nil => simp [lookupDoc, updateDoc] at h
  | cons p rest ih =>
    obtain ⟨k0, v0⟩ := p
    by_cases hk : k0 = k
    · subst hk
      simp only [updateDoc, if_pos rfl, lookupDoc] at h
      by_cases hi : k0 = i
      · rw [if_pos hi] at h
        left
        exact ⟨hi.symm, (Option.some_injective _ h).symm⟩
      · rw [if_neg hi] at h
        right
        simp only [lookupDoc, if_neg hi]
        exact h
    · simp only [updateDoc, if_neg hk, lookupDoc] at h
      by_cases hi : k0 = i
      · rw [if_pos hi] at h
        right
        simp only [lookupDoc, if_pos hi]
        exact h
      · rw [if_neg hi] at h
        rcases ih h with hcase | hcase
        · exact Or.inl hcase
        · right
          simp only [lookupDoc, if_neg hi]
          exact hcase

theorem actualizarBalance_lookup_ne (s : List (String × Balance))
    (d a m : String) (q : ℚ) (now : JsDate) (k : String)
    (h : k ≠ balKey d a m) :
    lookupDoc (actualizarBalance s d a m q now) k = lookupDoc s k := by
  simp only [actualizarBalance]
  cases hl : lookupDoc s (balKey d a m) with
  | some b =>
    exact lookupDoc_updateDoc_ne s (balKey d a m) k _ h
  | none =>
    simp only [lookupDoc]
    rw [if_neg (fun e => h e.symm)]

theorem foldl_cierre_filter (qp mon : String) (monto : ℚ) (now : JsDate)
    (l : List Participante) :
    ∀ s : List (String × Balance),
      l.foldl (fun s participante =>
        if participante.uid = qp then s
        else actualizarBalance s participante.uid qp mon
          (monto * participante.participacion) now) s =
      (l.filter (fun p => p.uid ≠ qp)).foldl (fun s participante =>
        actualizarBalance s participante.uid qp mon
          (monto * participante.participacion) now) s := by
  induction l with
  | nil => intro s; rfl
  | cons p rest ih =>
    intro s
    by_cases h : p.uid = qp
    · simp only [List.foldl_cons, if_pos h, List.filter_cons]
      rw [if_neg (by simp [h])]
      exact ih s
    · simp only [List.foldl_cons, if_neg h, List.filter_cons]
      rw [if_pos (by simp [h])]
      simp only [List.foldl_cons]
      exact ih _

theorem calcularBalances_eq_filter (ev : Evento) (s : List (String × Balance))
    (now : JsDate) :
    calcularBalances ev s now =
      (ev.participantes.filter (fun p => p.uid ≠ quienPagoDe ev)).foldl
        (fun s participante =>
          actualizarBalance s participante.uid (quienPagoDe ev)
            (monedaStr ev.moneda) (ev.monto * participante.participacion) now) s := by
  unfold calcularBalances
  exact foldl_cierre_filter (quienPagoDe ev) (monedaStr ev.moneda) ev.monto now
    ev.participantes s

theorem foldl_cierre_lookup_ne (qp mon : String) (monto : ℚ) (now : JsDate)
    (k : String) (l : List Participante) :
    ∀ s : List (String × Balance),
      (∀ p ∈ l, p.uid ≠ qp → k ≠ balKey p.uid qp mon) →
      lookupDoc (l.foldl (fun s participante =>
        if participante.uid = qp then s
        else actualizarBalance s participante.uid qp mon
          (monto * participante.participacion) now) s) k = lookupDoc s k := by
  induction l with
  | nil => intro s _; rfl
  | cons p rest ih =>
    intro s hk
    by_cases h : p.uid = qp
    · simp only [List.foldl_cons, if_pos h]
      exact ih s (fun p hp => hk p (List.mem_cons_of_mem _ hp))
    · simp only [List.foldl_cons, if_neg h]
      rw [ih _ (fun p hp => hk p (List.mem_cons_of_mem _ hp))]
      exact actualizarBalance_lookup_ne s p.uid qp mon _ now k
        (hk p (List.mem_cons_self _ _) h)

theorem calcularBalances_lookup_ne (ev : Evento) (s : List (String × Balance))
    (now : JsDate) (k : String)
    (h : ∀ p ∈ ev.participantes, p.uid ≠ quienPagoDe ev →
      k ≠ balKey p.uid (quienPagoDe ev) (monedaStr ev.moneda)) :
    lookupDoc (calcularBalances ev s now) k = lookupDoc s k := by
  unfold calcularBalances
  exact foldl_cierre_lookup_ne (quienPagoDe ev) (monedaStr ev.moneda) ev.monto now
    k ev.participantes s h

theorem actualizarParticipantes_length (parts : List Participante)
    (uid anAlias : String) :
    (actualizarParticipantes parts uid anAlias).length = parts.length + 1 := by
  simp [actualizarParticipantes]

theorem actualizarParticipantes_frac (parts : List Participante)
    (uid anAlias : String) :
    ∀ p ∈ actualizarParticipantes parts uid anAlias,
      p.participacion = 1 / ((parts.length : ℚ) + 1) := by
  intro p hp
  simp only [actualizarParticipantes, List.mem_append, List.mem_map,
    List.mem_singleton] at hp
  rcases hp with ⟨a, _, rfl⟩ | rfl
  · rfl
  · rfl

theorem sum_map_const_participacion (l : List Participante) (q : ℚ) :
    ((l.map (fun p => { p with participacion := q })).map
      (fun p => p.participacion)).sum = l.length * q := by
  induction l with
  | nil => simp
  | cons p rest ih =>
    simp only [List.map_cons, List.sum_cons, ih, List.length_cons]
    push_cast
    ring

theorem actualizarParticipantes_sum (parts : List Participante)
    (uid anAlias : String) :
    ((actualizarParticipantes parts uid anAlias).map
      (fun p => p.participacion)).sum = 1 := by
  have hne : ((parts.length : ℚ) + 1) ≠ 0 := by positivity
  simp only [actualizarParticipantes, List.map_append, List.sum_append,
    sum_map_const_participacion, List.map_cons, List.map_nil, List.sum_cons,
    List.sum_nil]
  field_simp

theorem joinByToken_success_eq (w : Mundo) (userId t : String) (now : JsDate)
    (invId : String) (invitacion : Invitacion) (evento : Evento)
    (ht : ¬ t = "")
    (hfind : buscarInvitacion w.invitaciones t = some (invId, invitacion))
    (hexp : invitacionExpirada invitacion now = false)
    (husos : invitacion.usos < invitacion.max_usos)
    (hev : lookupDoc w.eventos invitacion.evento_id = some evento)
    (habierto : evento.estado = Estado.abierto)
    (hmem : evento.participantes.any (fun p => p.uid = userId) = false) :
    joinByToken w (some userId) (some t) now =
      ({ w with
          eventos := updateDoc w.eventos invitacion.evento_id
            { evento with participantes := actualizarParticipantes evento.participantes userId (resolveAlias (lookupDoc w.usuarios userId)) },
          invitaciones := updateDoc w.invitaciones invId
            { invitacion with usos := invitacion.usos + 1 },
          auditorias := w.auditorias ++
            [{ tipo := "INVITAR", evento_id := evento.id,
               actor := userId, en := now }] },
       Except.ok { id := evento.id, titulo := evento.titulo,
                   participantes := evento.participantes.length + 1 }) := by
  have husos' : ¬ invitacion.usos ≥ invitacion.max_usos := by omega
  have hest : ¬ evento.estado ≠ Estado.abierto := by simp [habierto]
  simp only [joinByToken, if_neg ht]
  rw [hfind]
  simp only [hexp, Bool.false_eq_true, if_false, if_neg husos']
  rw [hev]
  simp only [if_neg hest, hmem, Bool.false_eq_true, if_false,
    actualizarParticipantes_length]

theorem joinByToken_world_cases (w : Mundo) (auth tok : Option String)
    (now : JsDate) :
    (joinByToken w auth tok now).1 = w ∨
    (∃ userId t invId invitacion evento,
      auth = some userId ∧ tok = some t ∧
      buscarInvitacion w.invitaciones t = some (invId, invitacion) ∧
      invitacion.usos < invitacion.max_usos ∧
      lookupDoc w.eventos invitacion.evento_id = some evento ∧
      joinByToken w auth tok now =
        ({ w with
            eventos := updateDoc w.eventos invitacion.evento_id
              { evento with participantes := actualizarParticipantes evento.participantes userId (resolveAlias (lookupDoc w.usuarios userId)) },
            invitaciones := updateDoc w.invitaciones invId
              { invitacion with usos := invitacion.usos + 1 },
            auditorias := w.auditorias ++
              [{ tipo := "INVITAR", evento_id := evento.id,
                 actor := userId, en := now }] },
         Except.ok { id := evento.id, titulo := evento.titulo,
                     participantes := evento.participantes.length + 1 })) := by
  cases auth with
  | none => left; rfl
  | some userId =>
    cases tok with
    | none => left; rfl
    | some t =>
      by_cases ht : t = ""
      · left; simp [joinByToken, ht]
      · cases hfind : buscarInvitacion w.invitaciones t with
        | none =>
          left; simp only [joinByToken, if_neg ht]; rw [hfind]
        | some pr =>
          obtain ⟨invId, invitacion⟩ := pr
          cases hexp : invitacionExpirada invitacion now with
          | true =>
            left; simp only [joinByToken, if_neg ht]; rw [hfind]
            simp [hexp]
          | false =>
            by_cases husos : invitacion.usos ≥ invitacion.max_usos
            · left; simp only [joinByToken, if_neg ht]; rw [hfind]
              simp [hexp, husos]
            · cases hev : lookupDoc w.eventos invitacion.evento_id with
              | none =>
                left; simp only [joinByToken, if_neg ht]; rw [hfind]
                simp only [hexp, Bool.false_eq_true, if_false, if_neg husos]
                rw [hev]
              | some evento =>
                by_cases habierto : evento.estado = Estado.abierto
                · cases hmem : evento.participantes.any (fun p => p.uid = userId) with
                  | true =>
                    left; simp only [joinByToken, if_neg ht]; rw [hfind]
                    simp only [hexp, Bool.false_eq_true, if_false, if_neg husos]
                    rw [hev]
                    simp [habierto, hmem]
                  | false =>
                    right
                    exact ⟨userId, t, invId, invitacion, evento, rfl, rfl, hfind,
                      by omega, hev,
                      joinByToken_success_eq w userId t now invId invitacion evento
                        ht hfind hexp (by omega) hev habierto hmem⟩
                · left; simp only [joinByToken, if_neg ht]; rw [hfind]
                  simp only [hexp, Bool.false_eq_true, if_false, if_neg husos]
                  rw [hev]
                  simp [habierto]

theorem actualizarBalance_lookup_self (s : List (String × Balance))
    (d a m : String) (q : ℚ) (now : JsDate) :
    lookupDoc (actualizarBalance s d a m q now) (balKey d a m) =
      some (match lookupDoc s (balKey d a m) with
        | some b =>
          { b with saldo := if (sortPair d a).1 = d then b.saldo - q else b.saldo + q,
                   actualizado_en := now }
        | none =>
          { key := balKey d a m, entre := ((sortPair d a).1, (sortPair d a).2),
            moneda := m, saldo := if (sortPair d a).1 = d then -q else q,
            actualizado_en := now }) := by
  simp only [actualizarBalance]
  cases hl : lookupDoc s (balKey d a m) with
  | some b => exact lookupDoc_updateDoc_self s (balKey d a m) b _ hl
  | none => simp [lookupDoc]

theorem procesarCierre_balances (w : Mundo) (after : Evento) (now : JsDate)
    (freshEvId freshInvId tokEv tokInv : String) :
    (procesarCierre w after now freshEvId freshInvId tokEv tokInv).balances =
      calcularBalances after w.balances now := by
  unfold procesarCierre
  by_cases h : after.repeticion = Repeticion.mensual <;> simp [h]

theorem onEventoUpdate_cierre_rollback (w : Mundo) (eventoId : String)
    (before after : Evento) (now : JsDate) (freshEvId freshInvId tokEv tokInv : String)
    (qp : String)
    (hb : before.estado = Estado.abierto) (ha : after.estado = Estado.cerrado)
    (hq : after.quien_pago = some qp) (hne : qp ≠ "")
    (hmem : ∀ p ∈ after.participantes, p.uid ≠ qp) :
    onEventoUpdate_cierre w eventoId before after now freshEvId freshInvId tokEv tokInv =
      ({ w with eventos := updateDoc w.eventos eventoId (revertirEvento after) },
       some CierreError.invalidState) := by
  have hany : ¬ after.participantes.any (fun p => p.uid = qp) = true := by
    simp only [List.any_eq_true, decide_eq_true_eq, not_exists]
    intro p
    simp only [not_and]
    exact fun hp => hmem p hp
  unfold onEventoUpdate_cierre
  rw [if_pos ⟨hb, ha⟩]
  simp only [hq]
  rw [if_pos ⟨hne, hany⟩]

theorem onEventoUpdate_cierre_sin_pagador (w : Mundo) (eventoId : String)
    (before after : Evento) (now : JsDate) (freshEvId freshInvId tokEv tokInv : String)
    (hb : before.estado = Estado.abierto) (ha : after.estado = Estado.cerrado)
    (hq : after.quien_pago = none) :
    onEventoUpdate_cierre w eventoId before after now freshEvId freshInvId tokEv tokInv =
      (procesarCierre w after now freshEvId freshInvId tokEv tokInv, none) := by
  unfold onEventoUpdate_cierre
  rw [if_pos ⟨hb, ha⟩]
  simp only [hq]

/-- C1: for a closed event, settlement accrues one debt of
`monto * participacion` toward the payer for every participant whose uid
differs from the payer, where the payer is `quien_pago` when set and
`creado_por` otherwise; no accrual is made for the payer and no balance
key other than a non-payer/payer pair key is touched; in Scenario A
(300 ARS split in thirds, payer u1) the pair records (u1,u2) and (u1,u3)
each hold saldo 100 (u2 resp. u3 owing u1 100) and no (u2,u3) record is
created. -/
theorem calcularBalances_settle_spec :
    (∀ (ev : Evento) (qp : String), ev.quien_pago = some qp → qp ≠ "" →
      quienPagoDe ev = qp) ∧
    (∀ ev : Evento, ev.quien_pago = none → quienPagoDe ev = ev.creado_por) ∧
    (∀ (ev : Evento) (s : List (String × Balance)) (now : JsDate),
      calcularBalances ev s now =
        (ev.participantes.filter (fun p => p.uid ≠ quienPagoDe ev)).foldl
          (fun s participante =>
            actualizarBalance s participante.uid (quienPagoDe ev)
              (monedaStr ev.moneda) (ev.monto * participante.participacion) now) s) ∧
    (∀ (ev : Evento) (s : List (String × Balance)) (now : JsDate) (k : String),
      (∀ p ∈ ev.participantes, p.uid ≠ quienPagoDe ev →
        k ≠ balKey p.uid (quienPagoDe ev) (monedaStr ev.moneda)) →
      lookupDoc (calcularBalances ev s now) k = lookupDoc s k) ∧
    calcularBalances eventoEscenarioA [] fecha0 =
      [("u1_u3_ARS", { key := "u1_u3_ARS", entre := ("u1", "u3"), moneda := "ARS",
                       saldo := 100, actualizado_en := fecha0 }),
       ("u1_u2_ARS", { key := "u1_u2_ARS", entre := ("u1", "u2"), moneda := "ARS",
                       saldo := 100, actualizado_en := fecha0 })] ∧
    lookupDoc (calcularBalances eventoEscenarioA [] fecha0) "u2_u3_ARS" = none := by
  refine ⟨?_, ?_, calcularBalances_eq_filter, calcularBalances_lookup_ne, ?_, rfl⟩
  · intro ev qp h hne
    simp only [quienPagoDe, h]
    rw [if_neg hne]
  · intro ev h
    simp only [quienPagoDe, h]
  · have h0 : calcularBalances eventoEscenarioA [] fecha0 =
      [("u1_u3_ARS", { key := "u1_u3_ARS", entre := ("u1", "u3"), moneda := "ARS",
                       saldo := 300 * (1/3), actualizado_en := fecha0 }),
       ("u1_u2_ARS", { key := "u1_u2_ARS", entre := ("u1", "u2"), moneda := "ARS",
                       saldo := 300 * (1/3), actualizado_en := fecha0 })] := rfl
    rw [h0]
    norm_num

/-- Witness for C1: the payer of the Scenario A event resolves to u1, and
a balance document under an unrelated key is left untouched by settlement. -/
theorem calcularBalances_settle_spec_witness :
    quienPagoDe eventoEscenarioA = "u1" ∧
    lookupDoc (calcularBalances eventoEscenarioA
        [("x_y_ARS", ⟨"x_y_ARS", ("x", "y"), "ARS", 7, fecha0⟩)] fecha0) "x_y_ARS" =
      lookupDoc [("x_y_ARS", ⟨"x_y_ARS", ("x", "y"), "ARS", 7, fecha0⟩)] "x_y_ARS" :=
  ⟨calcularBalances_settle_spec.1 eventoEscenarioA "u1" rfl (by decide),
   calcularBalances_settle_spec.2.2.2.1 eventoEscenarioA
     [("x_y_ARS", ⟨"x_y_ARS", ("x", "y"), "ARS", 7, fecha0⟩)] fecha0 "x_y_ARS"
     (by decide)⟩

/-- C2: the accrue operation stores the balance under the key built from
the lexicographically sorted identity pair plus the currency (independent
of argument order); a missing record starts from saldo 0 and the amount is
then subtracted when the debtor is the smaller identity A and added when
the debtor is the larger identity B (so positive saldo means B owes A);
an existing record is adjusted the same way; and accruing the same amount
twice moves saldo by twice the amount. -/
theorem actualizarBalance_accrue_spec (deudor acreedor moneda : String)
    (deuda : ℚ) (store : List (String × Balance)) (now : JsDate) :
    balKey deudor acreedor moneda = balKey acreedor deudor moneda ∧
    (lookupDoc store (balKey deudor acreedor moneda) = none →
      lookupDoc (actualizarBalance store deudor acreedor moneda deuda now)
          (balKey deudor acreedor moneda) =
        some { key := balKey deudor acreedor moneda,
               entre := ((sortPair deudor acreedor).1, (sortPair deudor acreedor).2),
               moneda := moneda,
               saldo := if (sortPair deudor acreedor).1 = deudor
                        then 0 - deuda else 0 + deuda,
               actualizado_en := now }) ∧
    (∀ b : Balance, lookupDoc store (balKey deudor acreedor moneda) = some b →
      lookupDoc (actualizarBalance store deudor acreedor moneda deuda now)
          (balKey deudor acreedor moneda) =
        some { b with
               saldo := if (sortPair deudor acreedor).1 = deudor
                        then b.saldo - deuda else b.saldo + deuda,
               actualizado_en := now }) ∧
    (lookupDoc (actualizarBalance
        (actualizarBalance store deudor acreedor moneda deuda now)
        deudor acreedor moneda deuda now)
        (balKey deudor acreedor moneda)).map (fun b => b.saldo) =
      some ((match lookupDoc store (balKey deudor acreedor moneda) with
             | some b => b.saldo
             | none => 0) +
            2 * (if (sortPair deudor acreedor).1 = deudor then -deuda else deuda)) := by
  refine ⟨balKey_comm deudor acreedor moneda, ?_, ?_, ?_⟩
  · intro hnone
    rw [actualizarBalance_lookup_self, hnone]
    simp only [zero_sub, zero_add]
  · intro b hb
    rw [actualizarBalance_lookup_self, hb]
  · rw [actualizarBalance_lookup_self, actualizarBalance_lookup_self]
    cases hl : lookupDoc store (balKey deudor acreedor moneda) with
    | some b =>
      by_cases hA : (sortPair deudor acreedor).1 = deudor
      · simp [hA]
        ring
      · simp [hA]
        ring
    | none =>
      by_cases hA : (sortPair deudor acreedor).1 = deudor
      · simp [hA]
        ring
      · simp [hA]
        ring

/-- Witness for C2: a first accrual of 25 from debtor b toward creditor a
in ARS creates the record keyed a_b_ARS with saldo 25 (b owes a). -/
theorem actualizarBalance_accrue_spec_witness :
    lookupDoc ([] : List (String × Balance)) (balKey "b" "a" "ARS") = none ∧
    lookupDoc (actualizarBalance [] "b" "a" "ARS" 25 fecha0) (balKey "b" "a" "ARS") =
      some { key := balKey "b" "a" "ARS",
             entre := ((sortPair "b" "a").1, (sortPair "b" "a").2),
             moneda := "ARS",
             saldo := if (sortPair "b" "a").1 = "b" then 0 - 25 else 0 + 25,
             actualizado_en := fecha0 } :=
  ⟨rfl, (actualizarBalance_accrue_spec "b" "a" "ARS" 25 [] fecha0).2.1 rfl⟩

/-- C3: closing an event whose `quien_pago` is set to an identity absent
from `participantes` makes the close trigger fail with the invalid-state
error, after writing the event back to estado `abierto` with `quien_pago`
and `fecha_pago` deleted; balances and invitations are untouched, so the
event never remains visibly closed after the failed transition. -/
theorem cierre_rollback_invalid_payer (w : Mundo) (eventoId : String)
    (before after : Evento) (now : JsDate)
    (freshEvId freshInvId tokEv tokInv : String) (qp : String)
    (hb : before.estado = Estado.abierto) (ha : after.estado = Estado.cerrado)
    (hq : after.quien_pago = some qp) (hne : qp ≠ "")
    (hmem : ∀ p ∈ after.participantes, p.uid ≠ qp)
    (hdoc : lookupDoc w.eventos eventoId = some after) :
    (onEventoUpdate_cierre w eventoId before after now
        freshEvId freshInvId tokEv tokInv).2 = some CierreError.invalidState ∧
    lookupDoc (onEventoUpdate_cierre w eventoId before after now
        freshEvId freshInvId tokEv tokInv).1.eventos eventoId =
      some (revertirEvento after) ∧
    (revertirEvento after).estado = Estado.abierto ∧
    (revertirEvento after).quien_pago = none ∧
    (revertirEvento after).fecha_pago = none ∧
    (onEventoUpdate_cierre w eventoId before after now
        freshEvId freshInvId tokEv tokInv).1.balances = w.balances ∧
    (onEventoUpdate_cierre w eventoId before after now
        freshEvId freshInvId tokEv tokInv).1.invitaciones = w.invitaciones := by
  rw [onEventoUpdate_cierre_rollback w eventoId before after now
    freshEvId freshInvId tokEv tokInv qp hb ha hq hne hmem]
  exact ⟨rfl, lookupDoc_updateDoc_self w.eventos eventoId after _ hdoc,
    rfl, rfl, rfl, rfl, rfl⟩

/-- Witness for C3: Scenario D, a two-participant event closed with payer
ux who is not a participant. -/
theorem cierre_rollback_invalid_payer_witness :
    (onEventoUpdate_cierre mundoD "EV-D" eventoAntesD eventoDespuesD fecha0
        "F1" "F2" "T1" "T2").2 = some CierreError.invalidState ∧
    lookupDoc (onEventoUpdate_cierre mundoD "EV-D" eventoAntesD eventoDespuesD fecha0
        "F1" "F2" "T1" "T2").1.eventos "EV-D" = some (revertirEvento eventoDespuesD) ∧
    (revertirEvento eventoDespuesD).estado = Estado.abierto ∧
    (revertirEvento eventoDespuesD).quien_pago = none ∧
    (revertirEvento eventoDespuesD).fecha_pago = none ∧
    (onEventoUpdate_cierre mundoD "EV-D" eventoAntesD eventoDespuesD fecha0
        "F1" "F2" "T1" "T2").1.balances = mundoD.balances ∧
    (onEventoUpdate_cierre mundoD "EV-D" eventoAntesD eventoDespuesD fecha0
        "F1" "F2" "T1" "T2").1.invitaciones = mundoD.invitaciones :=
  cierre_rollback_invalid_payer mundoD "EV-D" eventoAntesD eventoDespuesD fecha0
    "F1" "F2" "T1" "T2" "ux" rfl rfl rfl (by decide) (by decide) rfl

/-- C9: when `quien_pago` is absent on the after-state, the close trigger
raises no error (the membership check is only evaluated on a truthy payer),
and settlement runs with `creado_por` as the payer; when the creator is not
a participant, every participant accrues a debt toward the creator. -/
theorem cierre_sin_quien_pago_spec (w : Mundo) (eventoId : String)
    (before after : Evento) (now : JsDate)
    (freshEvId freshInvId tokEv tokInv : String)
    (hb : before.estado = Estado.abierto) (ha : after.estado = Estado.cerrado)
    (hq : after.quien_pago = none)
    (hcr : ∀ p ∈ after.participantes, p.uid ≠ after.creado_por) :
    (onEventoUpdate_cierre w eventoId before after now
        freshEvId freshInvId tokEv tokInv).2 = none ∧
    quienPagoDe after = after.creado_por ∧
    (onEventoUpdate_cierre w eventoId before after now
        freshEvId freshInvId tokEv tokInv).1.balances =
      after.participantes.foldl
        (fun s p => actualizarBalance s p.uid after.creado_por
          (monedaStr after.moneda) (after.monto * p.participacion) now)
        w.balances := by
  have hqp : quienPagoDe after = after.creado_por := by
    simp [quienPagoDe, hq]
  have hfil : after.participantes.filter (fun p => p.uid ≠ after.creado_por) =
      after.participantes :=
    List.filter_eq_self.mpr (fun p hp => decide_eq_true (hcr p hp))
  rw [onEventoUpdate_cierre_sin_pagador w eventoId before after now
    freshEvId freshInvId tokEv tokInv hb ha hq]
  refine ⟨rfl, hqp, ?_⟩
  rw [procesarCierre_balances, calcularBalances_eq_filter, hqp, hfil]

/-- Witness for C9: a closed event without an explicit payer whose creator
is not among the participants settles toward the creator with no error. -/
theorem cierre_sin_quien_pago_spec_witness :
    (onEventoUpdate_cierre mundoD "EV-D" eventoAntesD
        { eventoAntesD with estado := Estado.cerrado, creado_por := "boss" } fecha0
        "F1" "F2" "T1" "T2").2 = none ∧
    quienPagoDe { eventoAntesD with estado := Estado.cerrado, creado_por := "boss" } =
      ({ eventoAntesD with estado := Estado.cerrado, creado_por := "boss" } : Evento).creado_por ∧
    (onEventoUpdate_cierre mundoD "EV-D" eventoAntesD
        { eventoAntesD with estado := Estado.cerrado, creado_por := "boss" } fecha0
        "F1" "F2" "T1" "T2").1.balances =
      ({ eventoAntesD with estado := Estado.cerrado, creado_por := "boss" } : Evento).participantes.foldl
        (fun s p => actualizarBalance s p.uid
          ({ eventoAntesD with estado := Estado.cerrado, creado_por := "boss" } : Evento).creado_por
          (monedaStr ({ eventoAntesD with estado := Estado.cerrado, creado_por := "boss" } : Evento).moneda)
          (({ eventoAntesD with estado := Estado.cerrado, creado_por := "boss" } : Evento).monto * p.participacion) fecha0)
        mundoD.balances :=
  cierre_sin_quien_pago_spec mundoD "EV-D" eventoAntesD
    { eventoAntesD with estado := Estado.cerrado, creado_por := "boss" } fecha0
    "F1" "F2" "T1" "T2" rfl rfl rfl (by decide)

/-- C4: a successful join rewrites every existing participant's fraction to
`1 / (old count + 1)` and appends the requester with the same fraction, so
afterwards the participant count grew by one, every fraction equals `1/n`
for the new count `n`, and the fractions sum to exactly 1; the appended
alias is resolved from the requester profile, falling back to the local
part of the email and then to the literal Usuario. -/
theorem joinByToken_equal_split (w : Mundo) (userId t : String) (now : JsDate)
    (invId : String) (invitacion : Invitacion) (evento : Evento)
    (ht : ¬ t = "")
    (hfind : buscarInvitacion w.invitaciones t = some (invId, invitacion))
    (hexp : invitacionExpirada invitacion now = false)
    (husos : invitacion.usos < invitacion.max_usos)
    (hev : lookupDoc w.eventos invitacion.evento_id = some evento)
    (habierto : evento.estado = Estado.abierto)
    (hmem : evento.participantes.any (fun p => p.uid = userId) = false) :
    (∃ ev', lookupDoc (joinByToken w (some userId) (some t) now).1.eventos
        invitacion.evento_id = some ev' ∧
      ev'.participantes = actualizarParticipantes evento.participantes userId
        (resolveAlias (lookupDoc w.usuarios userId)) ∧
      ev'.participantes.length = evento.participantes.length + 1 ∧
      (∀ p ∈ ev'.participantes,
        p.participacion = 1 / ((evento.participantes.length : ℚ) + 1)) ∧
      (∀ p ∈ ev'.participantes,
        p.participacion = 1 / (ev'.participantes.length : ℚ)) ∧
      (ev'.participantes.map (fun p => p.participacion)).sum = 1 ∧
      ({ uid := userId,
         alias' := resolveAlias (lookupDoc w.usuarios userId),
         participacion := 1 / ((evento.participantes.length : ℚ) + 1) } : Participante)
        ∈ ev'.participantes) ∧
    resolveAlias none = "Usuario" ∧
    resolveAlias (some { displayName := none, email := none }) = "Usuario" ∧
    resolveAlias (some { displayName := none, email := some "ana@mail.com" }) = "ana" ∧
    resolveAlias (some { displayName := some "Pepe", email := some "ana@mail.com" }) = "Pepe" ∧
    resolveAlias (some { displayName := none, email := some "@mail.com" }) = "Usuario" := by
  refine ⟨?_, by decide, by decide, by decide, by decide, by decide⟩
  rw [joinByToken_success_eq w userId t now invId invitacion evento
    ht hfind hexp husos hev habierto hmem]
  refine ⟨{ evento with participantes := actualizarParticipantes evento.participantes userId (resolveAlias (lookupDoc w.usuarios userId)) },
    lookupDoc_updateDoc_self w.eventos invitacion.evento_id evento _ hev, rfl,
    actualizarParticipantes_length _ _ _,
    actualizarParticipantes_frac _ _ _, ?_,
    actualizarParticipantes_sum _ _ _, ?_⟩
  · intro p hp
    rw [actualizarParticipantes_frac _ _ _ p hp, actualizarParticipantes_length]
    norm_cast
  · simp only [actualizarParticipantes]
    exact List.mem_append_right _ (List.mem_singleton_self _)

/-- Witness for C4: u2 joins the one-participant event EV-B through token
tokB; afterwards both participants hold fraction one half. -/
theorem joinByToken_equal_split_witness :
    (∃ ev', lookupDoc (joinByToken mundoB (some "u2") (some "tokB") fecha0).1.eventos
        invitacionB.evento_id = some ev' ∧
      ev'.participantes = actualizarParticipantes eventoBase.participantes "u2"
        (resolveAlias (lookupDoc mundoB.usuarios "u2")) ∧
      ev'.participantes.length = eventoBase.participantes.length + 1 ∧
      (∀ p ∈ ev'.participantes,
        p.participacion = 1 / ((eventoBase.participantes.length : ℚ) + 1)) ∧
      (∀ p ∈ ev'.participantes,
        p.participacion = 1 / (ev'.participantes.length : ℚ)) ∧
      (ev'.participantes.map (fun p => p.participacion)).sum = 1 ∧
      ({ uid := "u2",
         alias' := resolveAlias (lookupDoc mundoB.usuarios "u2"),
         participacion := 1 / ((eventoBase.participantes.length : ℚ) + 1) } : Participante)
        ∈ ev'.participantes) ∧
    resolveAlias none = "Usuario" ∧
    resolveAlias (some { displayName := none, email := none }) = "Usuario" ∧
    resolveAlias (some { displayName := none, email := some "ana@mail.com" }) = "ana" ∧
    resolveAlias (some { displayName := some "Pepe", email := some "ana@mail.com" }) = "Pepe" ∧
    resolveAlias (some { displayName := none, email := some "@mail.com" }) = "Usuario" :=
  joinByToken_equal_split mundoB "u2" "tokB" fecha0 "invB" invitacionB eventoBase
    (by decide) rfl rfl (by decide) rfl rfl rfl

/-- C5: joinByToken fails with unauthenticated when no caller identity is
present, invalid-argument on a missing or empty token, not-found when no
invitation matches the token or the referenced event is absent,
deadline-exceeded on a set and past expiry, resource-exhausted once the
usage counter reaches the cap, failed-precondition on a non-open event and
already-exists for a caller who is already a participant; every failure
returns the world unchanged (no mutation), and on success the response
carries the event id, title and the new participant count. -/
theorem joinByToken_error_protocol :
    (∀ (w : Mundo) (tok : Option String) (now : JsDate),
      joinByToken w none tok now = (w, Except.error ErrCode.unauthenticated)) ∧
    (∀ (w : Mundo) (userId : String) (now : JsDate),
      joinByToken w (some userId) none now = (w, Except.error ErrCode.invalidArgument)) ∧
    (∀ (w : Mundo) (userId : String) (now : JsDate),
      joinByToken w (some userId) (some "") now =
        (w, Except.error ErrCode.invalidArgument)) ∧
    (∀ (w : Mundo) (userId t : String) (now : JsDate), ¬ t = "" →
      buscarInvitacion w.invitaciones t = none →
      joinByToken w (some userId) (some t) now = (w, Except.error ErrCode.notFound)) ∧
    (∀ (w : Mundo) (userId t : String) (now : JsDate)
      (invId : String) (invitacion : Invitacion), ¬ t = "" →
      buscarInvitacion w.invitaciones t = some (invId, invitacion) →
      invitacionExpirada invitacion now = true →
      joinByToken w (some userId) (some t) now =
        (w, Except.error ErrCode.deadlineExceeded)) ∧
    (∀ (w : Mundo) (userId t : String) (now : JsDate)
      (invId : String) (invitacion : Invitacion), ¬ t = "" →
      buscarInvitacion w.invitaciones t = some (invId, invitacion) →
      invitacionExpirada invitacion now = false →
      invitacion.usos ≥ invitacion.max_usos →
      joinByToken w (some userId) (some t) now =
        (w, Except.error ErrCode.resourceExhausted)) ∧
    (∀ (w : Mundo) (userId t : String) (now : JsDate)
      (invId : String) (invitacion : Invitacion), ¬ t = "" →
      buscarInvitacion w.invitaciones t = some (invId, invitacion) →
      invitacionExpirada invitacion now = false →
      invitacion.usos < invitacion.max_usos →
      lookupDoc w.eventos invitacion.evento_id = none →
      joinByToken w (some userId) (some t) now = (w, Except.error ErrCode.notFound)) ∧
    (∀ (w : Mundo) (userId t : String) (now : JsDate)
      (invId : String) (invitacion : Invitacion) (evento : Evento), ¬ t = "" →
      buscarInvitacion w.invitaciones t = some (invId, invitacion) →
      invitacionExpirada invitacion now = false →
      invitacion.usos < invitacion.max_usos →
      lookupDoc w.eventos invitacion.evento_id = some evento →
      evento.estado ≠ Estado.abierto →
      joinByToken w (some userId) (some t) now =
        (w, Except.error ErrCode.failedPrecondition)) ∧
    (∀ (w : Mundo) (userId t : String) (now : JsDate)
      (invId : String) (invitacion : Invitacion) (evento : Evento), ¬ t = "" →
      buscarInvitacion w.invitaciones t = some (invId, invitacion) →
      invitacionExpirada invitacion now = false →
      invitacion.usos < invitacion.max_usos →
      lookupDoc w.eventos invitacion.evento_id = some evento →
      evento.estado = Estado.abierto →
      evento.participantes.any (fun p => p.uid = userId) = true →
      joinByToken w (some userId) (some t) now =
        (w, Except.error ErrCode.alreadyExists)) ∧
    (∀ (w : Mundo) (userId t : String) (now : JsDate)
      (invId : String) (invitacion : Invitacion) (evento : Evento), ¬ t = "" →
      buscarInvitacion w.invitaciones t = some (invId, invitacion) →
      invitacionExpirada invitacion now = false →
      invitacion.usos < invitacion.max_usos →
      lookupDoc w.eventos invitacion.evento_id = some evento →
      evento.estado = Estado.abierto →
      evento.participantes.any (fun p => p.uid = userId) = false →
      (joinByToken w (some userId) (some t) now).2 =
        Except.ok { id := evento.id, titulo := evento.titulo,
                    participantes := evento.participantes.length + 1 }) := by
  refine ⟨?_, ?_, ?_, ?_, ?_, ?_, ?_, ?_, ?_, ?_⟩
  · intro w tok now
    cases tok <;> rfl
  · intro w userId now
    rfl
  · intro w userId now
    simp [joinByToken]
  · intro w userId t now ht hfind
    simp only [joinByToken, if_neg ht]
    rw [hfind]
  · intro w userId t now invId invitacion ht hfind hexp
    simp only [joinByToken, if_neg ht]
    rw [hfind]
    simp [hexp]
  · intro w userId t now invId invitacion ht hfind hexp husos
    simp only [joinByToken, if_neg ht]
    rw [hfind]
    simp [hexp, husos]
  · intro w userId t now invId invitacion ht hfind hexp husos hev
    have husos' : ¬ invitacion.usos ≥ invitacion.max_usos := by omega
    simp only [joinByToken, if_neg ht]
    rw [hfind]
    simp only [hexp, Bool.false_eq_true, if_false, if_neg husos']
    rw [hev]
  · intro w userId t now invId invitacion evento ht hfind hexp husos hev hcl
    have husos' : ¬ invitacion.usos ≥ invitacion.max_usos := by omega
    simp only [joinByToken, if_neg ht]
    rw [hfind]
    simp only [hexp, Bool.false_eq_true, if_false, if_neg husos']
    rw [hev]
    simp [hcl]
  · intro w userId t now invId invitacion evento ht hfind hexp husos hev habierto hmem
    have husos' : ¬ invitacion.usos ≥ invitacion.max_usos := by omega
    simp only [joinByToken, if_neg ht]
    rw [hfind]
    simp only [hexp, Bool.false_eq_true, if_false, if_neg husos']
    rw [hev]
    simp [habierto, hmem]
  · intro w userId t now invId invitacion evento ht hfind hexp husos hev habierto hmem
    rw [joinByToken_success_eq w userId t now invId invitacion evento
      ht hfind hexp husos hev habierto hmem]

/-- Witness for C5: each failure mode and the success shape exercised on
concrete worlds derived from the EV-B fixture. -/
theorem joinByToken_error_protocol_witness :
    joinByToken mundoB none (some "tokB") fecha0 =
      (mundoB, Except.error ErrCode.unauthenticated) ∧
    joinByToken mundoB (some "u2") none fecha0 =
      (mundoB, Except.error ErrCode.invalidArgument) ∧
    joinByToken mundoB (some "u2") (some "") fecha0 =
      (mundoB, Except.error ErrCode.invalidArgument) ∧
    joinByToken mundoB (some "u2") (some "zzz") fecha0 =
      (mundoB, Except.error ErrCode.notFound) ∧
    joinByToken mundoVencido (some "u2") (some "tokE") fecha0 =
      (mundoVencido, Except.error ErrCode.deadlineExceeded) ∧
    joinByToken { mundoB with invitaciones := [("invB", { invitacionB with usos := 1 })] }
        (some "u2") (some "tokB") fecha0 =
      ({ mundoB with invitaciones := [("invB", { invitacionB with usos := 1 })] },
       Except.error ErrCode.resourceExhausted) ∧
    joinByToken { mundoB with eventos := [] } (some "u2") (some "tokB") fecha0 =
      ({ mundoB with eventos := [] }, Except.error ErrCode.notFound) ∧
    joinByToken { mundoB with eventos := [("EV-B", { eventoBase with estado := Estado.cerrado })] }
        (some "u2") (some "tokB") fecha0 =
      ({ mundoB with eventos := [("EV-B", { eventoBase with estado := Estado.cerrado })] },
       Except.error ErrCode.failedPrecondition) ∧
    joinByToken mundoB (some "c0") (some "tokB") fecha0 =
      (mundoB, Except.error ErrCode.alreadyExists) ∧
    (joinByToken mundoB (some "u2") (some "tokB") fecha0).2 =
      Except.ok { id := eventoBase.id, titulo := eventoBase.titulo,
                  participantes := eventoBase.participantes.length + 1 } :=
  ⟨joinByToken_error_protocol.1 mundoB (some "tokB") fecha0,
   joinByToken_error_protocol.2.1 mundoB "u2" fecha0,
   joinByToken_error_protocol.2.2.1 mundoB "u2" fecha0,
   joinByToken_error_protocol.2.2.2.1 mundoB "u2" "zzz" fecha0 (by decide) rfl,
   joinByToken_error_protocol.2.2.2.2.1 mundoVencido "u2" "tokE" fecha0
     "invE" invitacionVencida (by decide) rfl rfl,
   joinByToken_error_protocol.2.2.2.2.2.1
     { mundoB with invitaciones := [("invB", { invitacionB with usos := 1 })] }
     "u2" "tokB" fecha0 "invB" { invitacionB with usos := 1 }
     (by decide) rfl rfl (by decide),
   joinByToken_error_protocol.2.2.2.2.2.2.1 { mundoB with eventos := [] }
     "u2" "tokB" fecha0 "invB" invitacionB (by decide) rfl rfl (by decide) rfl,
   joinByToken_error_protocol.2.2.2.2.2.2.2.1
     { mundoB with eventos := [("EV-B", { eventoBase with estado := Estado.cerrado })] }
     "u2" "tokB" fecha0 "invB" invitacionB { eventoBase with estado := Estado.cerrado }
     (by decide) rfl rfl (by decide) rfl (by decide),
   joinByToken_error_protocol.2.2.2.2.2.2.2.2.1 mundoB "c0" "tokB" fecha0
     "invB" invitacionB eventoBase (by decide) rfl rfl (by decide) rfl rfl rfl,
   joinByToken_error_protocol.2.2.2.2.2.2.2.2.2 mundoB "u2" "tokB" fecha0
     "invB" invitacionB eventoBase (by decide) rfl rfl (by decide) rfl rfl rfl⟩

/-- Counterexample for C6 as stated: the invitation invE satisfies
usos ≥ max_usos, yet an authenticated redeem with its matching token fails
with deadline-exceeded — not with the exhausted error — because the expiry
check runs before the usage-cap check. -/
theorem joinByToken_exhausted_counterexample :
    invitacionVencida.usos ≥ invitacionVencida.max_usos ∧
    buscarInvitacion mundoVencido.invitaciones "tokE" = some ("invE", invitacionVencida) ∧
    (joinByToken mundoVencido (some "u9") (some "tokE") fecha0).2 =
      Except.error ErrCode.deadlineExceeded ∧
    ¬ (joinByToken mundoVencido (some "u9") (some "tokE") fecha0).2 =
      Except.error ErrCode.resourceExhausted := by
  refine ⟨by decide, rfl, rfl, ?_⟩
  intro h
  have h2 : (joinByToken mundoVencido (some "u9") (some "tokE") fecha0).2 =
      Except.error ErrCode.deadlineExceeded := rfl
  rw [h2] at h
  injection h with h3
  exact ErrCode.noConfusion h3

/-- C6 amended: usos never exceeds max_usos — a redeem that finds an
invitation with usos ≥ max_usos leaves the world unchanged and fails, with
the exhausted error when the invitation is unexpired and with
deadline-exceeded when it has expired; only a successful join increments
the counter, and the increment preserves usos ≤ max_usos; Scenario B holds:
with max_usos = 1 the first redeem succeeds and the second fails with the
exhausted error. -/
theorem joinByToken_usage_monotonic_amended :
    (∀ (w : Mundo) (auth tok : Option String) (now : JsDate),
      (∀ id inv, lookupDoc w.invitaciones id = some inv → inv.usos ≤ inv.max_usos) →
      ∀ id inv', lookupDoc (joinByToken w auth tok now).1.invitaciones id = some inv' →
        inv'.usos ≤ inv'.max_usos) ∧
    (∀ (w : Mundo) (auth tok : Option String) (now : JsDate) (c : ErrCode),
      (joinByToken w auth tok now).2 = Except.error c →
      (joinByToken w auth tok now).1 = w) ∧
    (∀ (w : Mundo) (userId t : String) (now : JsDate) (invId : String)
        (invitacion : Invitacion), ¬ t = "" →
      buscarInvitacion w.invitaciones t = some (invId, invitacion) →
      invitacion.usos ≥ invitacion.max_usos →
      ((joinByToken w (some userId) (some t) now).1 = w ∧
       (invitacionExpirada invitacion now = false →
         joinByToken w (some userId) (some t) now =
           (w, Except.error ErrCode.resourceExhausted)) ∧
       (invitacionExpirada invitacion now = true →
         joinByToken w (some userId) (some t) now =
           (w, Except.error ErrCode.deadlineExceeded)))) ∧
    (joinByToken mundoB (some "u2") (some "tokB") fecha0).2 =
      Except.ok { id := "EV-B", titulo := "Asado", participantes := 2 } ∧
    joinByToken (joinByToken mundoB (some "u2") (some "tokB") fecha0).1
        (some "u3") (some "tokB") fecha0 =
      ((joinByToken mundoB (some "u2") (some "tokB") fecha0).1,
       Except.error ErrCode.resourceExhausted) := by
  refine ⟨?_, ?_, ?_, rfl, rfl⟩
  · intro w auth tok now hinv id inv' hl
    rcases joinByToken_world_cases w auth tok now with hsame |
      ⟨userId, t, invId, invitacion, evento, _, _, hfind, husos, hev, heq⟩
    · rw [hsame] at hl
      exact hinv id inv' hl
    · rw [heq] at hl
      rcases lookupDoc_updateDoc_cases w.invitaciones invId id
        { invitacion with usos := invitacion.usos + 1 } inv' hl with ⟨_, hveq⟩ | hold
      · rw [hveq]
        simpa using husos
      · exact hinv id inv' hold
  · intro w auth tok now c herr
    rcases joinByToken_world_cases w auth tok now with hsame |
      ⟨_, _, _, _, _, _, _, _, _, _, heq⟩
    · exact hsame
    · rw [heq] at herr
      simp at herr
  · intro w userId t now invId invitacion ht hfind husos
    refine ⟨?_, ?_, ?_⟩
    · cases hexp : invitacionExpirada invitacion now with
      | true =>
        simp only [joinByToken, if_neg ht]
        rw [hfind]
        simp [hexp]
      | false =>
        simp only [joinByToken, if_neg ht]
        rw [hfind]
        simp [hexp, husos]
    · intro hexp
      simp only [joinByToken, if_neg ht]
      rw [hfind]
      simp [hexp, husos]
    · intro hexp
      simp only [joinByToken, if_neg ht]
      rw [hfind]
      simp [hexp]

/-- Witness for the amended C6: a single-use invitation already at one use
is redeemed again and fails with the exhausted error, world unchanged. -/
theorem joinByToken_usage_monotonic_amended_witness :
    joinByToken { mundoB with invitaciones := [("invB", { invitacionB with usos := 1 })] }
        (some "u2") (some "tokB") fecha0 =
      ({ mundoB with invitaciones := [("invB", { invitacionB with usos := 1 })] },
       Except.error ErrCode.resourceExhausted) :=
  (joinByToken_usage_monotonic_amended.2.2.1
    { mundoB with invitaciones := [("invB", { invitacionB with usos := 1 })] }
    "u2" "tokB" fecha0 "invB" { invitacionB with usos := 1 }
    (by decide) rfl (by decide)).2.1 rfl

/-- C7: the spawned successor of a closed monthly event copies amount,
currency, recurrence, participants and forma_pago, gets a fresh creation
timestamp, open state, cleared payer and payment-timestamp fields, empty
attachments and the freshly generated token; a due date moves one calendar
month forward under the JS setMonth semantics; the companion invitation is
bound to the new document id, owned by the original creator, capped at 50
uses and expiring 30 days after spawn time.  The embedded id field of the
spawned record, however, is copied from the original (the object spread
defeats the declared Omit type): the final conjuncts exhibit this at the
EV-M fixture. -/
theorem crearEventoRecurrente_spawn_spec (orig : Evento) (now : JsDate)
    (tokEv tokInv freshEvId : String)
    (_hm : orig.repeticion = Repeticion.mensual) :
    (crearEventoRecurrente orig now tokEv).monto = orig.monto ∧
    (crearEventoRecurrente orig now tokEv).moneda = orig.moneda ∧
    (crearEventoRecurrente orig now tokEv).repeticion = orig.repeticion ∧
    (crearEventoRecurrente orig now tokEv).participantes = orig.participantes ∧
    (crearEventoRecurrente orig now tokEv).forma_pago = orig.forma_pago ∧
    (crearEventoRecurrente orig now tokEv).creado_en = now ∧
    (crearEventoRecurrente orig now tokEv).estado = Estado.abierto ∧
    (crearEventoRecurrente orig now tokEv).quien_pago = none ∧
    (crearEventoRecurrente orig now tokEv).fecha_pago = none ∧
    (crearEventoRecurrente orig now tokEv).adjuntos = [] ∧
    (crearEventoRecurrente orig now tokEv).token_invitacion = tokEv ∧
    (∀ v, orig.vence_el = some v →
      (crearEventoRecurrente orig now tokEv).vence_el = some (addOneMonth v)) ∧
    (crearInvitacion freshEvId orig.creado_por now tokInv).evento_id = freshEvId ∧
    (crearInvitacion freshEvId orig.creado_por now tokInv).creado_por = orig.creado_por ∧
    (crearInvitacion freshEvId orig.creado_por now tokInv).usos = 0 ∧
    (crearInvitacion freshEvId orig.creado_por now tokInv).max_usos = 50 ∧
    (crearInvitacion freshEvId orig.creado_por now tokInv).expira_en =
      some (addDays now 30) ∧
    (crearEventoRecurrente orig now tokEv).id = orig.id ∧
    (crearEventoRecurrente eventoMensual fecha0 "TK1").id = "EV-M" ∧
    (crearEventoRecurrente eventoMensual fecha0 "TK1").vence_el =
      some (⟨2024, 2, 2⟩ : JsDate) := by
  refine ⟨?_, ?_, ?_, ?_, ?_, ?_, ?_, ?_, ?_, ?_, ?_, ?_,
    rfl, rfl, rfl, rfl, rfl, ?_, by decide, by decide⟩
  all_goals
    cases hv : orig.vence_el <;> simp [crearEventoRecurrente, hv]

/-- Witness for C7: the EV-M fixture spawn keeps the amount and advances
the 31 January due date to 2 March (JS month-overflow semantics). -/
theorem crearEventoRecurrente_spawn_spec_witness :
    (crearEventoRecurrente eventoMensual fecha0 "TK1").monto = eventoMensual.monto ∧
    (crearEventoRecurrente eventoMensual fecha0 "TK1").vence_el =
      some (addOneMonth ⟨2024, 0, 31⟩) :=
  ⟨(crearEventoRecurrente_spawn_spec eventoMensual fecha0 "TK1" "TK2" "EV-N" rfl).1,
   (crearEventoRecurrente_spawn_spec eventoMensual fecha0 "TK1" "TK2" "EV-N"
      rfl).2.2.2.2.2.2.2.2.2.2.2.1 ⟨2024, 0, 31⟩ rfl⟩

/-- Counterexample for C8 as stated: the event E1 already has two
attachments, the freshly uploaded third file has a disallowed MIME type;
the validator deletes the file but writes no audit record at all, because
the type check rejects before the count check is reached. -/
theorem adjuntos_third_invalid_counterexample :
    contarArchivosEvento almacenTexto.files sinFallos "E1" = 3 ∧
    (onStorageFinalize_validarAdjuntos almacenTexto objetoTexto sinFallos fecha0).1.files =
      ["events/E1/a.jpg", "events/E1/b.jpg"] ∧
    (onStorageFinalize_validarAdjuntos almacenTexto objetoTexto sinFallos fecha0).1.auditorias =
      [] ∧
    ¬ ∃ a ∈ (onStorageFinalize_validarAdjuntos almacenTexto objetoTexto
        sinFallos fecha0).1.auditorias, a.tipo = "SUBIR_ADJUNTO_RECHAZADO" := by
  refine ⟨rfl, rfl, rfl, ?_⟩
  rintro ⟨a, ha, -⟩
  have h3 : (onStorageFinalize_validarAdjuntos almacenTexto objetoTexto
      sinFallos fecha0).1.auditorias = ([] : List Auditoria) := rfl
  rw [h3] at ha
  exact absurd ha (List.not_mem_nil a)

/-- C8 amended: when the third upload lies under the events path, has an
allowed MIME type and a size within 1 MiB, and the event already counts at
least two attachments, the validator deletes the file and appends an audit
record of the rejected type; a third upload with a disallowed MIME type is
deleted by the earlier type check without any audit record, so the
delete-plus-audit outcome holds only for an otherwise valid file. -/
theorem adjuntos_limit_amended :
    (∀ (alm : Almacen) (p : String) (obj : ObjetoStorage) (now : JsDate),
      obj.name = some p → jsStartsWith p "events/" = true →
      ¬ (jsSplit p '/').length < 3 →
      allowedTypes.contains (obj.contentType.getD "") = true →
      ¬ obj.size > maxSize →
      contarArchivosEvento alm.files sinFallos ((jsSplit p '/').getD 1 "") ≥ 2 →
      onStorageFinalize_validarAdjuntos alm obj sinFallos now =
        ({ files := alm.files.filter (fun f => f ≠ p),
           auditorias := alm.auditorias ++
             [{ tipo := "SUBIR_ADJUNTO_RECHAZADO",
                evento_id := (jsSplit p '/').getD 1 "",
                actor := "system", en := now }] }, none)) ∧
    (∀ (alm : Almacen) (p : String) (obj : ObjetoStorage) (now : JsDate),
      obj.name = some p → jsStartsWith p "events/" = true →
      ¬ (jsSplit p '/').length < 3 →
      allowedTypes.contains (obj.contentType.getD "") = false →
      onStorageFinalize_validarAdjuntos alm obj sinFallos now =
        ({ alm with files := alm.files.filter (fun f => f ≠ p) }, none)) ∧
    (onStorageFinalize_validarAdjuntos almacenValido objetoValido sinFallos fecha0).1 =
      { files := ["events/E1/a.jpg", "events/E1/b.jpg"],
        auditorias := [{ tipo := "SUBIR_ADJUNTO_RECHAZADO", evento_id := "E1",
                         actor := "system", en := fecha0 }] } := by
  refine ⟨?_, ?_, rfl⟩
  · intro alm p obj now hname hpref hparts htipo hsize hcount
    simp only [onStorageFinalize_validarAdjuntos, hname]
    rw [if_neg (by simp [hpref]), if_neg hparts,
      if_neg (by simp only [not_not]; simpa using htipo),
      if_neg hsize, if_pos hcount]
    simp [eliminarArchivo, registrarAuditoria, sinFallos]
  · intro alm p obj now hname hpref hparts htipo
    simp only [onStorageFinalize_validarAdjuntos, hname]
    rw [if_neg (by simp [hpref]), if_neg hparts,
      if_pos (by simpa using htipo)]
    simp [eliminarArchivo, sinFallos]

/-- Witness for the amended C8: the valid third upload to E1 is deleted and
the rejected-type audit record is appended. -/
theorem adjuntos_limit_amended_witness :
    onStorageFinalize_validarAdjuntos almacenValido objetoValido sinFallos fecha0 =
      ({ files := almacenValido.files.filter (fun f => f ≠ "events/E1/c.jpg"),
         auditorias := almacenValido.auditorias ++
           [{ tipo := "SUBIR_ADJUNTO_RECHAZADO",
              evento_id := (jsSplit "events/E1/c.jpg" '/').getD 1 "",
              actor := "system", en := fecha0 }] }, none) :=
  adjuntos_limit_amended.1 almacenValido "events/E1/c.jpg" objetoValido fecha0
    rfl rfl (by decide) rfl (by decide) (by decide)

/-- C10: a listing failure makes the attachment counter return 0 instead of
propagating the error, so the validator accepts an otherwise valid upload
regardless of how many attachments the event actually has; and the trigger
never re-raises: its re-raised-error component is none for every object and
every collaborator-failure combination. -/
theorem contarArchivos_error_swallowing_spec :
    (∀ (files : List String) (fallos : FallosStorage) (eventoId : String),
      fallos.listaFalla = true → contarArchivosEvento files fallos eventoId = 0) ∧
    (∀ (alm : Almacen) (p : String) (obj : ObjetoStorage) (now : JsDate)
        (fallos : FallosStorage),
      fallos.listaFalla = true →
      obj.name = some p → jsStartsWith p "events/" = true →
      ¬ (jsSplit p '/').length < 3 →
      allowedTypes.contains (obj.contentType.getD "") = true →
      ¬ obj.size > maxSize →
      onStorageFinalize_validarAdjuntos alm obj fallos now = (alm, none)) ∧
    (∀ (alm : Almacen) (obj : ObjetoStorage) (fallos : FallosStorage) (now : JsDate),
      (onStorageFinalize_validarAdjuntos alm obj fallos now).2 = none) := by
  refine ⟨?_, ?_, ?_⟩
  · intro files fallos eventoId h
    simp [contarArchivosEvento, h]
  · intro alm p obj now fallos hlist hname hpref hparts htipo hsize
    have hc : contarArchivosEvento alm.files fallos ((jsSplit p '/').getD 1 "") = 0 := by
      simp [contarArchivosEvento, hlist]
    simp only [onStorageFinalize_validarAdjuntos, hname]
    rw [if_neg (by simp [hpref]), if_neg hparts,
      if_neg (by simp only [not_not]; simpa using htipo),
      if_neg hsize, if_neg (by omega)]
  · intro alm obj fallos now
    obtain ⟨nm, sz, ct⟩ := obj
    cases nm with
    | none => rfl
    | some p =>
      simp only [onStorageFinalize_validarAdjuntos]
      split_ifs <;> rfl

/-- Witness for C10: with the bucket listing failing, a valid upload to an
event that actually holds three files is accepted unchanged. -/
theorem contarArchivos_error_swallowing_spec_witness :
    onStorageFinalize_validarAdjuntos almacenValido objetoValido
        { listaFalla := true, borradoFalla := false, auditoriaFalla := false } fecha0 =
      (almacenValido, none) :=
  contarArchivos_error_swallowing_spec.2.1 almacenValido "events/E1/c.jpg"
    objetoValido fecha0
    { listaFalla := true, borradoFalla := false, auditoriaFalla := false }
    rfl rfl rfl (by decide) rfl (by decide)
